import Mathlib

/-!
Shallow embedding of `custom_components/kef/media_player.py` from the
`aiokef` repository, together with spec-modelled fragments of the missing
`custom_components/kef/async_kef_api` client module.

Conventions of the embedding:
* Python exceptions are modelled as values of the `Err` type; an `async`
  call that may raise returns `Except Err α`.
* Mutation of `self` in the Python entity is modelled by explicit state
  passing over the `KefMediaPlayer` record.  A method that can raise after
  having mutated `self` returns `Except (Err × KefMediaPlayer) KefMediaPlayer`:
  the error case carries the (partially mutated) entity state at the point
  of the raise, exactly as the Python object would be left.
* The sequence of speaker-client calls a method performs is returned as an
  explicit trace (`List SpeakerCall`), so ordering and conditional-call
  claims can be stated.
* Volume fractions are modelled as rational numbers.
-/

deriving instance DecidableEq for Except

namespace Kef

/-- `homeassistant.const.STATE_ON`. -/
def STATE_ON : String := "on"

/-- `homeassistant.const.STATE_OFF`. -/
def STATE_OFF : String := "off"

/-- Modelled from the spec: `INPUT_SOURCES` of the missing
`custom_components/kef/async_kef_api` module — "Source: one of a fixed
enumerated set of named input sources (e.g. Wi-Fi, Bluetooth, Aux, Optical,
USB); the set is static and known at compile time."  The keys of the
Python dict, here directly as a list of names. -/
def INPUT_SOURCES : List String := ["Aux", "Bluetooth", "Optical", "USB", "Wifi"]

/-- `KEF_LS50_SOURCES = sorted(INPUT_SOURCES.keys())`; the list above is
already sorted. -/
def KEF_LS50_SOURCES : List String := INPUT_SOURCES

/-- Python exception values that can flow through the component.
`valueError` is the built-in `ValueError` (with its message);
`communicationError` and `invalidSourceError` are the typed errors of the
speaker client described by the spec; `otherError` stands for any other
exception. -/
inductive Err where
  | communicationError : Err
  | invalidSourceError : Err
  | valueError : String → Err
  | otherError : Nat → Err
deriving DecidableEq, Repr

/-- Modelled from the spec: construction parameters of the missing
`AsyncKefSpeaker` client — "Construction: `(host, port, volume_step,
maximum_volume)`". -/
structure AsyncKefSpeaker where
  host : String
  port : Nat
  volume_step : ℚ
  maximum_volume : ℚ
deriving DecidableEq, Repr

/-- Modelled from the spec: the observed device-side state the client
reads and writes — "online/offline, powered on/off, muted/unmuted, volume
level (0.0–1.0), active source". -/
structure DeviceState where
  volume : ℚ
  muted : Bool
  source : String
  is_on : Bool
deriving DecidableEq, Repr

/-- Modelled from the spec: `set_volume(level: float in [0,1])` of the
missing `AsyncKefSpeaker` — "clamps to configured maximum, converts to
device units, sends write command": the device volume register becomes
`min level maximum_volume`. -/
def AsyncKefSpeaker.set_volume (sp : AsyncKefSpeaker) (level : ℚ)
    (d : DeviceState) : DeviceState :=
  { d with volume := min level sp.maximum_volume }

/-- Modelled from the spec: `get_volume()` of the missing `AsyncKefSpeaker`
— "reads raw device volume register, normalizes, clamps to configured
maximum". -/
def AsyncKefSpeaker.get_volume (sp : AsyncKefSpeaker) (d : DeviceState) : ℚ :=
  min d.volume sp.maximum_volume

/-- The mutable state of a `KefMediaPlayer` entity: its construction-time
configuration (`name`, `sources`) and the cached fields `self._state`,
`self._muted`, `self._source`, `self._volume`, each initialised to `None`
in `__init__`. -/
structure KefMediaPlayer where
  name : String
  sources : List String
  state : Option String
  muted : Option Bool
  source : Option String
  volume : Option ℚ
deriving DecidableEq, Repr

/-- `KefMediaPlayer.__init__`: configuration stored, the four cached
fields set to `None`. -/
def KefMediaPlayer.init (name : String) (sources : List String) : KefMediaPlayer :=
  { name := name, sources := sources,
    state := none, muted := none, source := none, volume := none }

/-- The speaker-client calls the entity can make, for call traces. -/
inductive SpeakerCall where
  | isOnline
  | isMuted
  | getVolume
  | getSourceAndState
  | turnOn
  | turnOff
deriving DecidableEq, Repr

/-- Outcomes of the four read calls used by one `async_update` cycle: each
field is what the corresponding awaited call would return, or the
exception it would raise. -/
structure SpeakerResponses where
  is_online : Except Err Bool
  is_muted : Except Err Bool
  get_volume : Except Err ℚ
  get_source_and_state : Except Err (String × Bool)
deriving DecidableEq, Repr

/-- The `try` body of `KefMediaPlayer.async_update`, with the entity state
threaded through each mutation and the trace of speaker calls recorded.
An exception aborts the body carrying the state as mutated so far. -/
def async_update_body (sp : SpeakerResponses) (s : KefMediaPlayer) :
    Except (Err × KefMediaPlayer) KefMediaPlayer × List SpeakerCall :=
  match sp.is_online with
  | .error e => (.error (e, s), [.isOnline])
  | .ok false =>
      (.ok { s with muted := none, source := none, volume := none,
                    state := some STATE_OFF },
       [.isOnline])
  | .ok true =>
    match sp.is_muted with
    | .error e => (.error (e, s), [.isOnline, .isMuted])
    | .ok m =>
      let s1 : KefMediaPlayer := { s with muted := some m }
      match sp.get_volume with
      | .error e => (.error (e, s1), [.isOnline, .isMuted, .getVolume])
      | .ok v =>
        let s2 : KefMediaPlayer := { s1 with volume := some v }
        match sp.get_source_and_state with
        | .error e =>
            (.error (e, s2),
             [.isOnline, .isMuted, .getVolume, .getSourceAndState])
        | .ok (src, is_on) =>
            (.ok { s2 with source := some src,
                           state := some (if is_on then STATE_ON else STATE_OFF) },
             [.isOnline, .isMuted, .getVolume, .getSourceAndState])

/-- `KefMediaPlayer.async_update`: the `try` body wrapped in
`except Exception as e: _LOGGER.debug(...)` — any exception is swallowed
and the entity is left in whatever state the body reached. -/
def async_update (sp : SpeakerResponses) (s : KefMediaPlayer) :
    Except Err KefMediaPlayer × List SpeakerCall :=
  match async_update_body sp s with
  | (.ok s1, tr) => (.ok s1, tr)
  | (.error (_, s1), tr) => (.ok s1, tr)

/-- `KefMediaPlayer.async_set_volume_level` on the success path of the
awaited `self._speaker.set_volume(volume)` call: the device register takes
the spec-modelled clamped value while the cached `self._volume` is set to
the requested value itself. -/
def async_set_volume_level (sp : AsyncKefSpeaker) (volume : ℚ)
    (s : KefMediaPlayer) (d : DeviceState) : KefMediaPlayer × DeviceState :=
  ({ s with volume := some volume }, sp.set_volume volume d)

/-- `KefMediaPlayer.async_mute_volume`: awaits `mute()` or `unmute()`
(whose outcome is `callResult`), then sets `self._muted = mute`.  An
exception from the call propagates with the entity unchanged. -/
def async_mute_volume (callResult : Except Err Unit) (mute : Bool)
    (s : KefMediaPlayer) : Except (Err × KefMediaPlayer) KefMediaPlayer :=
  match callResult with
  | .error e => .error (e, s)
  | .ok _ => .ok { s with muted := some mute }

/-- `KefMediaPlayer.async_select_source`: if the requested source is in
`self.source_list`, `self._source` is assigned BEFORE the awaited
`self._speaker.set_source(source)` call (whose outcome is `callResult`);
otherwise a `ValueError` is raised without touching the speaker.  The
returned `Bool` records whether the speaker call was made. -/
def async_select_source (callResult : Except Err Unit) (source : String)
    (s : KefMediaPlayer) :
    Except (Err × KefMediaPlayer) KefMediaPlayer × Bool :=
  if source ∈ s.sources then
    let s1 : KefMediaPlayer := { s with source := some source }
    match callResult with
    | .ok _ => (.ok s1, true)
    | .error e => (.error (e, s1), true)
  else
    (.error (.valueError ("Unknown input source: " ++ source ++ "."), s), false)

/-- `KefMediaPlayer.async_turn_off`: awaits `self._speaker.turn_off()`
(outcome `callResult`), then sets `self._state = STATE_ON`.  The second
component records the power command sent. -/
def async_turn_off (callResult : Except Err Unit) (s : KefMediaPlayer) :
    Except (Err × KefMediaPlayer) KefMediaPlayer × SpeakerCall :=
  (match callResult with
   | .error e => .error (e, s)
   | .ok _ => .ok { s with state := some STATE_ON },
   .turnOff)

/-- `KefMediaPlayer.async_turn_on`: awaits `self._speaker.turn_on()`
(outcome `callResult`), then sets `self._state = STATE_OFF`.  The second
component records the power command sent. -/
def async_turn_on (callResult : Except Err Unit) (s : KefMediaPlayer) :
    Except (Err × KefMediaPlayer) KefMediaPlayer × SpeakerCall :=
  (match callResult with
   | .error e => .error (e, s)
   | .ok _ => .ok { s with state := some STATE_OFF },
   .turnOn)

/-- Configuration handed to `async_setup_platform` after schema
validation: host, port, name and the two tuning fractions. -/
structure PlatformConfig where
  host : String
  port : Nat
  name : String
  maximum_volume : ℚ
  volume_step : ℚ
deriving DecidableEq, Repr

/-- `unique_id = f"{host}:{port}"`. -/
def uniqueId (host : String) (port : Nat) : String :=
  host ++ ":" ++ toString port

/-- `async_setup_platform`: builds the `KefMediaPlayer` for the config,
and if `host:port` is not yet a key of the registry `hass.data[DATA_KEF]`
stores it there and adds the entity; otherwise only logs.  Returns the new
registry together with the list of entities added by this call. -/
def async_setup_platform (registry : List (String × KefMediaPlayer))
    (config : PlatformConfig) :
    List (String × KefMediaPlayer) × List KefMediaPlayer :=
  let media_player := KefMediaPlayer.init config.name KEF_LS50_SOURCES
  let unique_id := uniqueId config.host config.port
  if (registry.lookup unique_id).isSome then
    (registry, [])
  else
    ((unique_id, media_player) :: registry, [media_player])

end Kef

namespace Kef

/-! Concrete fixtures used by witnesses and counterexamples. -/

/-- A sample entity with every cached field populated. -/
def sampleEntity : KefMediaPlayer :=
  { name := "KEF", sources := KEF_LS50_SOURCES,
    state := some STATE_ON, muted := some false,
    source := some "Aux", volume := some 1 }

/-- A sample speaker client configured with `maximum_volume = 1/2` (the
platform default 0.5). -/
def sampleSpeaker : AsyncKefSpeaker :=
  { host := "192.168.1.10", port := 50001,
    volume_step := 1/20, maximum_volume := 1/2 }

/-- A sample device-side state. -/
def sampleDevice : DeviceState :=
  { volume := 0, muted := false, source := "Aux", is_on := true }

/-- Responses of a cycle in which every read call succeeds. -/
def okResponses : SpeakerResponses :=
  { is_online := .ok true, is_muted := .ok false, get_volume := .ok 1,
    get_source_and_state := .ok ("Wifi", true) }

/-- Responses of a cycle in which the device reports itself offline. -/
def offlineResponses : SpeakerResponses :=
  { is_online := .ok false, is_muted := .ok false, get_volume := .ok 0,
    get_source_and_state := .ok ("Aux", false) }

/-- Responses of a cycle in which `is_online` raises. -/
def failingResponses : SpeakerResponses :=
  { is_online := .error (.otherError 0), is_muted := .ok false, get_volume := .ok 0,
    get_source_and_state := .ok ("Aux", true) }

/-- C5: in every update cycle in which `is_online()` returns false,
`async_update` raises no exception and sets the entity's state to off and
its volume, mute and source properties to the unknown value `None`. -/
theorem C5_offline_cycle (sp : SpeakerResponses) (s : KefMediaPlayer)
    (h : sp.is_online = .ok false) :
    async_update sp s =
      (.ok { s with muted := none, source := none, volume := none,
                    state := some STATE_OFF },
       [SpeakerCall.isOnline]) := by
  simp [async_update, async_update_body, h]

theorem C5_offline_cycle_witness :
    async_update offlineResponses sampleEntity =
      (.ok { sampleEntity with muted := none, source := none, volume := none,
                               state := some STATE_OFF },
       [SpeakerCall.isOnline]) :=
  C5_offline_cycle offlineResponses sampleEntity rfl

/-- C6: `async_update` calls `is_online` first, calls `is_muted`,
`get_volume` and `get_source_and_state` only when `is_online` returned
true in the same cycle, and when the device is online (and the reads
succeed) the reported power state is the one returned by the combined
`get_source_and_state` query. -/
theorem C6_call_order (sp : SpeakerResponses) (s : KefMediaPlayer) :
    (async_update sp s).2.head? = some SpeakerCall.isOnline ∧
    (∀ c ∈ (async_update sp s).2, c ≠ SpeakerCall.isOnline → sp.is_online = .ok true) ∧
    (∀ m v src b, sp.is_online = .ok true → sp.is_muted = .ok m →
      sp.get_volume = .ok v → sp.get_source_and_state = .ok (src, b) →
      (async_update sp s).1 =
        .ok { s with muted := some m, volume := some v, source := some src,
                     state := some (if b then STATE_ON else STATE_OFF) }) := by
  obtain ⟨o, mu, vo, gs⟩ := sp
  cases o with
  | error e => simp [async_update, async_update_body]
  | ok b =>
    cases b with
    | false => simp [async_update, async_update_body]
    | true =>
      cases mu with
      | error e => simp [async_update, async_update_body]
      | ok m =>
        cases vo with
        | error e => simp [async_update, async_update_body]
        | ok v =>
          cases gs with
          | error e => simp [async_update, async_update_body]
          | ok p =>
            obtain ⟨src, b1⟩ := p
            cases b1 <;> simp [async_update, async_update_body, STATE_ON, STATE_OFF]

theorem C6_call_order_witness :
    (async_update okResponses sampleEntity).1 =
      .ok { sampleEntity with muted := some false, volume := some 1,
                              source := some "Wifi", state := some STATE_ON } :=
  (C6_call_order okResponses sampleEntity).2.2 false 1 "Wifi" true rfl rfl rfl rfl

/-- C10: `async_update` never propagates an exception to its caller: for
every possible outcome of the underlying client calls it returns an `ok`
entity state. -/
theorem C10_update_never_raises (sp : SpeakerResponses) (s : KefMediaPlayer) :
    ∃ s1, (async_update sp s).1 = Except.ok s1 := by
  rcases h : async_update_body sp s with ⟨r, tr⟩
  rcases r with ⟨e, s1⟩ | s1
  · exact ⟨s1, by simp [async_update, h]⟩
  · exact ⟨s1, by simp [async_update, h]⟩

/-- C8: `async_mute_volume(m)` changes only the entity's muted flag; the
cached volume level, the active source and the power state are unchanged
(and on a failing speaker call nothing changes at all). -/
theorem C8_mute_frame (mute : Bool) (s : KefMediaPlayer) :
    (∃ s1, async_mute_volume (.ok ()) mute s = .ok s1 ∧ s1.muted = some mute ∧
      s1.volume = s.volume ∧ s1.source = s.source ∧ s1.state = s.state) ∧
    (∀ e, async_mute_volume (.error e) mute s = .error (e, s)) :=
  ⟨⟨{ s with muted := some mute }, rfl, rfl, rfl, rfl, rfl⟩, fun _ => rfl⟩

/-- C9: after `async_turn_off` completes without error the entity's state
equals `STATE_ON`, and after `async_turn_on` completes without error it
equals `STATE_OFF`: the optimistic post-command state is the opposite of
the power command sent. -/
theorem C9_power_state_inversion (s : KefMediaPlayer) :
    ((async_turn_off (.ok ()) s).1 = .ok { s with state := some STATE_ON } ∧
      (async_turn_off (.ok ()) s).2 = SpeakerCall.turnOff) ∧
    ((async_turn_on (.ok ()) s).1 = .ok { s with state := some STATE_OFF } ∧
      (async_turn_on (.ok ()) s).2 = SpeakerCall.turnOn) :=
  ⟨⟨rfl, rfl⟩, ⟨rfl, rfl⟩⟩

end Kef

namespace Kef

/-- A sample platform configuration. -/
def sampleConfig : PlatformConfig :=
  { host := "192.168.1.10", port := 50001, name := "KEF",
    maximum_volume := 1/2, volume_step := 1/20 }

/-- C7: for every pair of platform setups with the same host and port, the
speaker is registered under `host:port` at most once: the second setup
finds the key present, leaves the registry unchanged and adds no
entity. -/
theorem C7_no_duplicate_setup (registry : List (String × KefMediaPlayer))
    (c1 c2 : PlatformConfig) (hh : c1.host = c2.host) (hp : c1.port = c2.port) :
    async_setup_platform (async_setup_platform registry c1).1 c2 =
      ((async_setup_platform registry c1).1, []) := by
  have huid : uniqueId c2.host c2.port = uniqueId c1.host c1.port := by
    rw [hh, hp]
  unfold async_setup_platform
  simp only [huid]
  by_cases h : (registry.lookup (uniqueId c1.host c1.port)).isSome
  · simp [h]
  · simp [h, List.lookup]

theorem C7_no_duplicate_setup_witness :
    async_setup_platform (async_setup_platform [] sampleConfig).1 sampleConfig =
      ((async_setup_platform [] sampleConfig).1, []) :=
  C7_no_duplicate_setup [] sampleConfig sampleConfig rfl rfl

/-- C1 counterexample: with `maximum_volume = 1/2` and the in-range request
`v = 1`, a successful `async_set_volume_level` leaves the entity's
volume_level at `1`, not at `min 1 (1/2) = 1/2`: the cached property is
not clamped to the configured maximum. -/
theorem C1_counterexample :
    (0 : ℚ) ≤ 1 ∧ (1 : ℚ) ≤ 1 ∧
    (async_set_volume_level sampleSpeaker 1 sampleEntity sampleDevice).1.volume ≠
      some (min 1 sampleSpeaker.maximum_volume) := by
  refine ⟨by norm_num, le_refl 1, ?_⟩
  simp only [async_set_volume_level, sampleSpeaker, Option.some_inj, ne_eq]
  norm_num [min_def]

/-- C1 (amended): after a successful `async_set_volume_level(v)` the
entity's volume_level equals the requested value `v` itself, while the
device-side volume register is clamped to `min v maximum_volume`; the
cached volume_level therefore equals `min v maximum_volume` exactly when
`v ≤ maximum_volume`. -/
theorem C1_volume_cached_unclamped (sp : AsyncKefSpeaker) (v : ℚ)
    (s : KefMediaPlayer) (d : DeviceState) :
    (async_set_volume_level sp v s d).1.volume = some v ∧
    (async_set_volume_level sp v s d).2.volume = min v sp.maximum_volume ∧
    (v ≤ sp.maximum_volume →
      (async_set_volume_level sp v s d).1.volume = some (min v sp.maximum_volume)) := by
  refine ⟨rfl, rfl, fun h => ?_⟩
  simp [async_set_volume_level, min_eq_left h]

theorem C1_volume_cached_unclamped_witness :
    (async_set_volume_level sampleSpeaker 0 sampleEntity sampleDevice).1.volume =
      some (min 0 sampleSpeaker.maximum_volume) :=
  (C1_volume_cached_unclamped sampleSpeaker 0 sampleEntity sampleDevice).2.2
    (by norm_num [sampleSpeaker])

/-- C2 counterexample: selecting the valid source "Bluetooth" while the
speaker call raises `CommunicationError` - the error does propagate, but
the observed source property has already changed from "Aux" to
"Bluetooth", so the entity state is not unchanged on error. -/
theorem C2_counterexample :
    "Bluetooth" ∈ sampleEntity.sources ∧
    sampleEntity.source = some "Aux" ∧
    (async_select_source (.error .communicationError) "Bluetooth" sampleEntity).1 =
      .error (.communicationError, { sampleEntity with source := some "Bluetooth" }) ∧
    ({ sampleEntity with source := some "Bluetooth" } : KefMediaPlayer).source ≠
      sampleEntity.source := by
  refine ⟨by decide, rfl, by decide, by decide⟩

/-- C2 (amended): for a source in the source list, if the underlying
`set_source` call raises, the error propagates to the caller, but the
observed source property has already been optimistically assigned before
the command was sent, so after the failure it equals the requested source
rather than its previous value. -/
theorem C2_error_propagates_source_assigned (e : Err) (source : String)
    (s : KefMediaPlayer) (h : source ∈ s.sources) :
    (async_select_source (.error e) source s).1 =
      .error (e, { s with source := some source }) := by
  simp [async_select_source, h]

theorem C2_error_propagates_source_assigned_witness :
    (async_select_source (.error .communicationError) "Bluetooth" sampleEntity).1 =
      .error (.communicationError, { sampleEntity with source := some "Bluetooth" }) :=
  C2_error_propagates_source_assigned .communicationError "Bluetooth" sampleEntity
    (by decide)

/-- C3 counterexample: for the unknown source "Unknown" the entity raises
the built-in `ValueError("Unknown input source: Unknown.")`, which is not
the client's `InvalidSourceError`; the speaker is never called and the
entity is unchanged. -/
theorem C3_counterexample :
    "Unknown" ∉ sampleEntity.sources ∧
    (async_select_source (.ok ()) "Unknown" sampleEntity) =
      (.error (.valueError "Unknown input source: Unknown.", sampleEntity), false) ∧
    Err.valueError "Unknown input source: Unknown." ≠ Err.invalidSourceError := by
  refine ⟨by decide, by decide, by decide⟩

/-- C3 (amended): for every string `source` not in the entity's source
list, `async_select_source` fails with the entity's own
`ValueError("Unknown input source: <source>.")` (not the client's
`InvalidSourceError`), never invokes the speaker's `set_source`, never
silently corrects the source, and leaves the entity - in particular its
observed source property - unchanged. -/
theorem C3_invalid_source_value_error (callResult : Except Err Unit)
    (source : String) (s : KefMediaPlayer) (h : source ∉ s.sources) :
    async_select_source callResult source s =
      (.error (.valueError ("Unknown input source: " ++ source ++ "."), s), false) := by
  simp [async_select_source, h]

theorem C3_invalid_source_value_error_witness :
    async_select_source (.ok ()) "Unknown" sampleEntity =
      (.error (.valueError ("Unknown input source: " ++ "Unknown" ++ "."),
               sampleEntity), false) :=
  C3_invalid_source_value_error (.ok ()) "Unknown" sampleEntity (by decide)

/-- C4 counterexample: a cycle in which `is_online` raises - the failure
is swallowed, but the entity keeps its previous state (here on, volume 1,
muted false, source "Aux") instead of ending in a degraded unknown/offline
state. -/
theorem C4_counterexample :
    failingResponses.is_online = .error (Err.otherError 0) ∧
    (async_update failingResponses sampleEntity).1 = .ok sampleEntity ∧
    sampleEntity.state = some STATE_ON ∧
    sampleEntity.state ≠ some STATE_OFF ∧
    sampleEntity.volume ≠ none ∧
    sampleEntity.muted ≠ none ∧
    sampleEntity.source ≠ none := by
  refine ⟨rfl, by decide, rfl, by decide, by decide, by decide, by decide⟩

/-- C4 (amended): when a poll-path call raises, `async_update` swallows
the failure but leaves the entity's properties with the values they had at
the point of the failure - including partial updates by the calls that
succeeded earlier in the same cycle; it does not reset them to the
unknown/off values (only an `is_online() = false` result does that). -/
theorem C4_swallow_keeps_partial_state (sp : SpeakerResponses) (s : KefMediaPlayer) :
    (∀ e, sp.is_online = .error e →
      async_update sp s = (.ok s, [SpeakerCall.isOnline])) ∧
    (∀ e, sp.is_online = .ok true → sp.is_muted = .error e →
      async_update sp s = (.ok s, [SpeakerCall.isOnline, SpeakerCall.isMuted])) ∧
    (∀ e m, sp.is_online = .ok true → sp.is_muted = .ok m →
      sp.get_volume = .error e →
      async_update sp s = (.ok { s with muted := some m },
        [SpeakerCall.isOnline, SpeakerCall.isMuted, SpeakerCall.getVolume])) ∧
    (∀ e m v, sp.is_online = .ok true → sp.is_muted = .ok m →
      sp.get_volume = .ok v → sp.get_source_and_state = .error e →
      async_update sp s = (.ok { s with muted := some m, volume := some v },
        [SpeakerCall.isOnline, SpeakerCall.isMuted, SpeakerCall.getVolume,
         SpeakerCall.getSourceAndState])) := by
  refine ⟨fun e h1 => ?_, fun e h1 h2 => ?_, fun e m h1 h2 h3 => ?_,
          fun e m v h1 h2 h3 h4 => ?_⟩
  · simp [async_update, async_update_body, h1]
  · simp [async_update, async_update_body, h1, h2]
  · simp [async_update, async_update_body, h1, h2, h3]
  · simp [async_update, async_update_body, h1, h2, h3, h4]

theorem C4_swallow_keeps_partial_state_witness :
    async_update failingResponses sampleEntity =
      (.ok sampleEntity, [SpeakerCall.isOnline]) :=
  (C4_swallow_keeps_partial_state failingResponses sampleEntity).1
    (Err.otherError 0) rfl

end Kef
